import Mathlib

/-!
Verification of the mobile-app authentication backend
(`backend/backend_mobile_auth.py`): app-ID/password login with device
binding, password reset, device-ID reset, and password change.

The Python handlers are embedded shallowly.  The persistence layer is a
`DB` value holding the Employee records, the User records (keyed by user
id) and the current session user; each handler maps a `DB` and its
arguments to a result dictionary together with the updated `DB`.
Python truthiness on nullable string fields (`if not employee.device_id`)
is modelled by `optTruthy`; `None` is `Option.none` and the empty string
is `some ""` (both falsy).  Random hashes (`frappe.generate_hash`) and the
current timestamp (`now_datetime`) enter as explicit parameters.
-/

namespace MobileAuth

/-- Python `str.strip()`: drop leading and trailing whitespace. -/
def pyStrip (s : String) : String :=
  String.mk (((s.data.dropWhile Char.isWhitespace).reverse.dropWhile Char.isWhitespace).reverse)

/-- Python truthiness of a nullable string field: `None` and `""` are falsy. -/
def optTruthy : Option String → Bool
  | none => false
  | some s => s != ""

/-- The Employee fields read or written by the handlers. -/
structure Employee where
  name : String
  employee_name : String
  user_id : String
  allow_ess : Bool
  app_id : String
  app_password : Option String
  device_id : Option String
  device_model : Option String
  device_brand : Option String
  device_registered_on : Option Nat
  require_password_reset : Option Nat
deriving DecidableEq, Repr

/-- The User fields read or written by `generate_api_credentials`. -/
structure User where
  api_key : Option String
  api_secret : Option String
deriving DecidableEq, Repr

/-- The persistence and session state the handlers touch. -/
structure DB where
  employees : List Employee
  users : List (String × User)
  session : String
deriving DecidableEq, Repr

/-- `frappe.db.set_value("Employee", name, ...)`: update every Employee
record with the given name. -/
def DB.updateEmployee (db : DB) (name : String) (f : Employee → Employee) : DB :=
  { db with employees := db.employees.map (fun e => if e.name == name then f e else e) }

/-- `frappe.get_doc("User", uid)`: look up the User record, `none` when the
document does not exist (in which case the collaborator raises). -/
def DB.findUser (db : DB) (uid : String) : Option User :=
  (db.users.find? (fun p => p.1 == uid)).map Prod.snd

/-- Saving a User document: update the record stored under the user id. -/
def DB.updateUser (db : DB) (uid : String) (f : User → User) : DB :=
  { db with users := db.users.map (fun p => if p.1 == uid then (p.1, f p.2) else p) }

/-- The device-binding write of `mobile_app_login` step 4 (first login). -/
def bindDevice (d m b : String) (now : Nat) (e : Employee) : Employee :=
  { e with device_id := some d, device_model := some m,
           device_brand := some b, device_registered_on := some now }

/-- The write performed by `reset_device_id`: clear all four device fields. -/
def clearDevice (e : Employee) : Employee :=
  { e with device_id := none, device_model := none,
           device_brand := none, device_registered_on := none }

/-- The write performed by `generate_api_credentials` on the User document. -/
def setCreds (key secret : String) (u : User) : User :=
  { u with api_key := some key, api_secret := some secret }

/-- The API key `generate_api_credentials` ends up with: the stored one if
truthy, otherwise the freshly generated hash. -/
def newApiKey (u : User) (freshKey : String) : String :=
  if optTruthy u.api_key then u.api_key.getD "" else freshKey

/-- The write performed by `reset_app_password` on the Employee document. -/
def setPasswordAndClearFlag (pw : String) (e : Employee) : Employee :=
  { e with app_password := some pw, require_password_reset := some 0 }

/-- The write performed by `change_app_password` on the Employee document. -/
def setPassword (pw : String) (e : Employee) : Employee :=
  { e with app_password := some pw }

/-- The `data` dictionary returned on successful login. -/
structure LoginData where
  employee_id : String
  employee_name : String
  user : String
  api_key : String
  api_secret : String
  device_id : String
  app_id : String
  require_password_reset : Nat
deriving DecidableEq, Repr

/-- The uniform `{success, message, data?}` dictionary every handler returns. -/
structure Result where
  success : Bool
  message : String
  data : Option LoginData := none
deriving DecidableEq, Repr

/-- `{"success": False, "message": msg}`. -/
def failure (msg : String) : Result := ⟨false, msg, none⟩

/-- `generate_api_credentials(user)`: fetch the User document, keep its
`api_key` if truthy and otherwise install the fresh hash `freshKey`, always
install the fresh hash `secret` as `api_secret`, save, and return the key
together with the retrievable secret.  `none` when the User document does
not exist (the `frappe.get_doc` call raises). -/
def generate_api_credentials (db : DB) (user secret freshKey : String) :
    Option (String × String × DB) :=
  match db.findUser user with
  | none => none
  | some user_doc =>
    let api_key := newApiKey user_doc freshKey
    some (api_key, secret, db.updateUser user (setCreds api_key secret))

/-- `mobile_app_login(usr, app_password, device_id, device_model,
device_brand)`.  `now` is the value of `now_datetime()`, `secret` and
`freshKey` are the values of the two possible `frappe.generate_hash`
calls inside `generate_api_credentials`. -/
def mobile_app_login (db : DB) (usr app_password device_id device_model device_brand : String)
    (now : Nat) (secret freshKey : String) : Result × DB :=
  let usr := if usr = "" then "" else pyStrip usr
  if usr = "" then
    (failure "App ID is required", db)
  else
    match db.employees.find? (fun e => e.app_id == usr) with
    | none => (failure "Invalid App ID", db)
    | some employee =>
      if !employee.allow_ess then
        (failure "Employee Self Service is not enabled for this account", db)
      else
        let stored_password := employee.app_password
        if !optTruthy stored_password then
          (failure "App password not set. Please contact administrator", db)
        else if stored_password ≠ some app_password then
          (failure "Invalid app password", db)
        else
          let step4 : Option String × DB :=
            if !optTruthy employee.device_id then
              (none, db.updateEmployee employee.name (bindDevice device_id device_model device_brand now))
            else
              if employee.device_id ≠ some device_id ∨
                  employee.device_model ≠ some device_model ∨
                  employee.device_brand ≠ some device_brand then
                (some "Access denied. This account is registered to a different device. Please contact HR to reset device access.", db)
              else
                (none, db)
          match step4 with
          | (some msg, db) => (failure msg, db)
          | (none, db) =>
            let db := { db with session := employee.user_id }
            match generate_api_credentials db employee.user_id secret freshKey with
            | none =>
              (failure "An error occurred during login. Please try again", db)
            | some (api_key, api_secret, db) =>
              ({ success := true, message := "Login successful",
                 data := some {
                   employee_id := employee.name,
                   employee_name := employee.employee_name,
                   user := employee.user_id,
                   api_key := api_key,
                   api_secret := api_secret,
                   device_id := device_id,
                   app_id := employee.app_id,
                   require_password_reset := employee.require_password_reset.getD 0 } }, db)

/-- `reset_app_password(new_password)`: for the session user, set the app
password and clear the `require_password_reset` flag. -/
def reset_app_password (db : DB) (new_password : String) : Result × DB :=
  let user := db.session
  if user = "Guest" then
    (failure "Authentication required", db)
  else
    match db.employees.find? (fun e => e.user_id == user) with
    | none => (failure "Employee record not found", db)
    | some employee =>
      (⟨true, "Password reset successfully", none⟩,
       db.updateEmployee employee.name (setPasswordAndClearFlag new_password))

/-- `reset_device_id(employee_id)`: clear the four device-binding fields;
`has_permission` is the result of `frappe.has_permission("Employee", "write")`. -/
def reset_device_id (db : DB) (has_permission : Bool) (employee_id : String) : Result × DB :=
  if !has_permission then
    (failure "Insufficient permissions", db)
  else
    (⟨true, "Device ID has been reset successfully. Employee can now login from a new device.", none⟩,
     db.updateEmployee employee_id clearDevice)

/-- `change_app_password(old_app_password, new_app_password)`: for the
session user, verify the stored app password against the old one and
install the new one. -/
def change_app_password (db : DB) (old_app_password new_app_password : String) : Result × DB :=
  let user := db.session
  match db.employees.find? (fun e => e.user_id == user) with
  | none => (failure "No employee record found", db)
  | some employee =>
    let stored_password := employee.app_password
    if !optTruthy stored_password ∨ stored_password ≠ some old_app_password then
      (failure "Current app password is incorrect", db)
    else
      (⟨true, "App password changed successfully", none⟩,
       db.updateEmployee employee.name (setPassword new_app_password))

/-- The device-binding precondition under which step 4 of `mobile_app_login`
lets the login proceed: the stored device id is falsy (unbound), or all
three stored device descriptors equal the supplied ones with a truthy
stored device id (bound and matching). -/
def deviceOk (e : Employee) (d m b : String) : Prop :=
  optTruthy e.device_id = false ∨
    (e.device_id = some d ∧ e.device_model = some m ∧ e.device_brand = some b ∧
     optTruthy e.device_id = true)

instance (e : Employee) (d m b : String) : Decidable (deviceOk e d m b) := by
  unfold deviceOk; infer_instance

/-! ### The handlers with raising collaborators

Every handler body is wrapped in `try/except Exception`; any exception a
collaborator raises is logged under the handler's error title and turned
into a generic failure dictionary.  To state that, each handler is also
embedded over an oracle whose collaborator calls may raise (`Except E`),
with the body following the source line by line and the `_exc` wrapper
realising the `try/except`; the second component of the wrapper's output
is the list of error-log titles written. -/

/-- The collaborator calls `mobile_app_login` makes, each allowed to raise. -/
structure LoginCollab (E : Type) where
  get_value_employee : Except E (Option Employee)
  get_password : Except E (Option String)
  now_datetime : Except E Nat
  set_value_device : Except E Unit
  commit : Except E Unit
  login_as : Except E Unit
  gen_credentials : Except E (String × String)

/-- The `try` block of `mobile_app_login` over raising collaborators. -/
def mobile_app_login_body {E : Type} (o : LoginCollab E)
    (usr app_password device_id device_model device_brand : String) : Except E Result := do
  let usr := if usr = "" then "" else pyStrip usr
  if usr = "" then
    return failure "App ID is required"
  else
    match ← o.get_value_employee with
    | none => return failure "Invalid App ID"
    | some employee =>
      if !employee.allow_ess then
        return failure "Employee Self Service is not enabled for this account"
      else
        let stored_password ← o.get_password
        if !optTruthy stored_password then
          return failure "App password not set. Please contact administrator"
        else if stored_password ≠ some app_password then
          return failure "Invalid app password"
        else
          if !optTruthy employee.device_id then do
            let _ ← o.now_datetime
            o.set_value_device
            o.commit
          else
            if employee.device_id ≠ some device_id ∨
                employee.device_model ≠ some device_model ∨
                employee.device_brand ≠ some device_brand then
              return failure "Access denied. This account is registered to a different device. Please contact HR to reset device access."
          o.login_as
          let (api_key, api_secret) ← o.gen_credentials
          return { success := true, message := "Login successful",
                   data := some {
                     employee_id := employee.name,
                     employee_name := employee.employee_name,
                     user := employee.user_id,
                     api_key := api_key,
                     api_secret := api_secret,
                     device_id := device_id,
                     app_id := employee.app_id,
                     require_password_reset := employee.require_password_reset.getD 0 } }

/-- `mobile_app_login` with its `try/except`: a raised exception is logged
under "Mobile App Login Error" and converted to the generic login failure. -/
def mobile_app_login_exc {E : Type} (o : LoginCollab E)
    (usr app_password device_id device_model device_brand : String) : Result × List String :=
  match mobile_app_login_body o usr app_password device_id device_model device_brand with
  | .ok r => (r, [])
  | .error _ =>
    (failure "An error occurred during login. Please try again", ["Mobile App Login Error"])

/-- The collaborator calls `reset_app_password` makes. -/
structure ResetPwCollab (E : Type) where
  session_user : Except E String
  get_value_employee : Except E (Option String)
  save_employee : Except E Unit
  commit : Except E Unit

/-- The `try` block of `reset_app_password` over raising collaborators. -/
def reset_app_password_body {E : Type} (o : ResetPwCollab E) : Except E Result := do
  let user ← o.session_user
  if user = "Guest" then
    return failure "Authentication required"
  else
    match ← o.get_value_employee with
    | none => return failure "Employee record not found"
    | some _ => do
      o.save_employee
      o.commit
      return ⟨true, "Password reset successfully", none⟩

/-- `reset_app_password` with its `try/except`. -/
def reset_app_password_exc {E : Type} (o : ResetPwCollab E) : Result × List String :=
  match reset_app_password_body o with
  | .ok r => (r, [])
  | .error _ =>
    (failure "An error occurred. Please try again", ["Reset App Password Error"])

/-- The collaborator calls `reset_device_id` makes. -/
structure ResetDevCollab (E : Type) where
  has_permission : Except E Bool
  set_value_device : Except E Unit
  commit : Except E Unit

/-- The `try` block of `reset_device_id` over raising collaborators. -/
def reset_device_id_body {E : Type} (o : ResetDevCollab E) : Except E Result := do
  if !(← o.has_permission) then
    return failure "Insufficient permissions"
  else
    o.set_value_device
    o.commit
    return ⟨true, "Device ID has been reset successfully. Employee can now login from a new device.", none⟩

/-- `reset_device_id` with its `try/except`. -/
def reset_device_id_exc {E : Type} (o : ResetDevCollab E) : Result × List String :=
  match reset_device_id_body o with
  | .ok r => (r, [])
  | .error _ =>
    (failure "An error occurred. Please try again", ["Reset Device ID Error"])

/-- The collaborator calls `change_app_password` makes. -/
structure ChangePwCollab (E : Type) where
  session_user : Except E String
  get_value_employee : Except E (Option String)
  get_password : Except E (Option String)
  save_employee : Except E Unit
  commit : Except E Unit

/-- The `try` block of `change_app_password` over raising collaborators. -/
def change_app_password_body {E : Type} (o : ChangePwCollab E)
    (old_app_password : String) : Except E Result := do
  let _user ← o.session_user
  match ← o.get_value_employee with
  | none => return failure "No employee record found"
  | some _ => do
    let stored_password ← o.get_password
    if !optTruthy stored_password ∨ stored_password ≠ some old_app_password then
      return failure "Current app password is incorrect"
    else
      o.save_employee
      o.commit
      return ⟨true, "App password changed successfully", none⟩

/-- `change_app_password` with its `try/except`. -/
def change_app_password_exc {E : Type} (o : ChangePwCollab E)
    (old_app_password : String) : Result × List String :=
  match change_app_password_body o old_app_password with
  | .ok r => (r, [])
  | .error _ =>
    (failure "An error occurred. Please try again", ["Change App Password Error"])

/-! ### Concrete fixtures used by witnesses and counterexamples -/

/-- An employee with ESS enabled, an app password and no bound device. -/
def aliceUnbound : Employee :=
  { name := "HR-EMP-1", employee_name := "Alice", user_id := "alice",
    allow_ess := true, app_id := "APP1", app_password := some "pw1",
    device_id := none, device_model := none, device_brand := none,
    device_registered_on := none, require_password_reset := some 1 }

/-- The same employee with a device bound. -/
def aliceBound : Employee :=
  { aliceUnbound with device_id := some "DEV1", device_model := some "M1",
                      device_brand := some "B1", device_registered_on := some 5 }

/-- Store with the unbound employee, a guest session and a fresh User. -/
def dbUnbound : DB :=
  { employees := [aliceUnbound], users := [("alice", ⟨none, none⟩)], session := "Guest" }

/-- Store with the bound employee, a guest session and a provisioned User. -/
def dbBound : DB :=
  { employees := [aliceBound], users := [("alice", ⟨some "KEY0", some "SEC0"⟩)],
    session := "Guest" }

/-- Store with the unbound employee and the employee's own session. -/
def dbSelf : DB :=
  { employees := [aliceUnbound], users := [("alice", ⟨none, none⟩)], session := "alice" }

/-- A login oracle whose every collaborator call raises. -/
def throwingLoginCollab : LoginCollab Unit :=
  { get_value_employee := .error (), get_password := .error (), now_datetime := .error (),
    set_value_device := .error (), commit := .error (), login_as := .error (),
    gen_credentials := .error () }

/-- A reset-password oracle whose every collaborator call raises. -/
def throwingResetPwCollab : ResetPwCollab Unit :=
  { session_user := .error (), get_value_employee := .error (),
    save_employee := .error (), commit := .error () }

/-- A reset-device oracle whose every collaborator call raises. -/
def throwingResetDevCollab : ResetDevCollab Unit :=
  { has_permission := .error (), set_value_device := .error (), commit := .error () }

/-- A change-password oracle whose every collaborator call raises. -/
def throwingChangePwCollab : ChangePwCollab Unit :=
  { session_user := .error (), get_value_employee := .error (), get_password := .error (),
    save_employee := .error (), commit := .error () }

/-! ### Helper lemmas about the record store -/

/-- `find?` commutes with a map that does not change the predicate's value. -/
theorem find?_map_key {α : Type} (l : List α) (g : α → α) (p : α → Bool)
    (hg : ∀ x, p (g x) = p x) : (l.map g).find? p = (l.find? p).map g := by
  induction l with
  | nil => rfl
  | cons a t ih =>
    simp only [List.map_cons, List.find?_cons]
    rw [hg]
    cases hpa : p a <;> simp [ih]

/-- Updating an Employee record does not disturb a `find?` keyed on a field
the update preserves; the found record is the (conditionally) updated one. -/
theorem find?_updateEmployee_key (db : DB) (n : String) (f : Employee → Employee)
    (key : Employee → String) (hf : ∀ x, key (f x) = key x) (a : String) :
    (db.updateEmployee n f).employees.find? (fun x => key x == a) =
      (db.employees.find? (fun x => key x == a)).map
        (fun e => if e.name == n then f e else e) := by
  apply find?_map_key
  intro x
  by_cases hx : x.name == n <;> simp [hx, hf]

theorem findUser_updateEmployee (db : DB) (n : String) (f : Employee → Employee)
    (uid : String) : (db.updateEmployee n f).findUser uid = db.findUser uid := rfl

theorem employees_updateUser (db : DB) (uid : String) (f : User → User) :
    (db.updateUser uid f).employees = db.employees := rfl

theorem findUser_updateUser_self (db : DB) (uid : String) (f : User → User) (u : User)
    (h : db.findUser uid = some u) : (db.updateUser uid f).findUser uid = some (f u) := by
  obtain ⟨pair, hfind, hsnd⟩ :
      ∃ p, db.users.find? (fun p => p.1 == uid) = some p ∧ p.2 = u := by
    unfold DB.findUser at h
    cases hh : db.users.find? (fun p => p.1 == uid) with
    | none => rw [hh] at h; simp at h
    | some p => rw [hh] at h; simp at h; exact ⟨p, rfl, h⟩
  have hkey' := List.find?_some hfind
  have hkey : (pair.1 == uid) = true := hkey'
  simp only [DB.updateUser, DB.findUser]
  rw [find?_map_key _ _ _ (fun x => by by_cases hx : x.1 == uid <;> simp [hx]), hfind]
  have hp1 : pair.1 = uid := by simpa using hkey
  simp [hp1, hsnd]

/-! ### Run lemmas for `mobile_app_login` -/

theorem login_unbound_eq
    (db : DB) (usr pw d m b : String) (now : Nat) (s k : String) (e : Employee) (u : User)
    (h0 : usr ≠ "") (h1 : pyStrip usr = usr)
    (hfind : db.employees.find? (fun x => x.app_id == usr) = some e)
    (hess : e.allow_ess = true)
    (hpw : e.app_password = some pw) (hpwne : pw ≠ "")
    (hunb : optTruthy e.device_id = false)
    (huser : db.findUser e.user_id = some u) :
    mobile_app_login db usr pw d m b now s k =
      (⟨true, "Login successful", some ⟨e.name, e.employee_name, e.user_id,
          newApiKey u k, s, d, e.app_id, e.require_password_reset.getD 0⟩⟩,
       ({ db.updateEmployee e.name (bindDevice d m b now) with session := e.user_id }
         ).updateUser e.user_id (setCreds (newApiKey u k) s)) := by
  have hu : (if usr = "" then "" else pyStrip usr) = usr := by rw [if_neg h0, h1]
  have hopt : optTruthy (some pw) = true := by simp [optTruthy, hpwne]
  have huser' : ({ db.updateEmployee e.name (bindDevice d m b now) with
      session := e.user_id } : DB).findUser e.user_id = some u := huser
  simp only [mobile_app_login, hu, if_neg h0, hfind, hess, hpw, hopt, hunb,
    generate_api_credentials, huser', Bool.not_true, Bool.false_eq_true, if_false,
    ne_eq, not_true, ite_false, Bool.not_false, if_true]

theorem login_bound_eq
    (db : DB) (usr pw d m b : String) (now : Nat) (s k : String) (e : Employee) (u : User)
    (h0 : usr ≠ "") (h1 : pyStrip usr = usr)
    (hfind : db.employees.find? (fun x => x.app_id == usr) = some e)
    (hess : e.allow_ess = true)
    (hpw : e.app_password = some pw) (hpwne : pw ≠ "")
    (hd : e.device_id = some d) (hdne : d ≠ "")
    (hm : e.device_model = some m) (hb : e.device_brand = some b)
    (huser : db.findUser e.user_id = some u) :
    mobile_app_login db usr pw d m b now s k =
      (⟨true, "Login successful", some ⟨e.name, e.employee_name, e.user_id,
          newApiKey u k, s, d, e.app_id, e.require_password_reset.getD 0⟩⟩,
       ({ db with session := e.user_id }).updateUser e.user_id (setCreds (newApiKey u k) s)) := by
  have hu : (if usr = "" then "" else pyStrip usr) = usr := by rw [if_neg h0, h1]
  have hopt : optTruthy (some pw) = true := by simp [optTruthy, hpwne]
  have hoptd : optTruthy e.device_id = true := by simp [hd, optTruthy, hdne]
  have hoptd' : optTruthy (some d) = true := by simp [optTruthy, hdne]
  have huser' : ({ db with session := e.user_id } : DB).findUser e.user_id = some u := huser
  simp only [mobile_app_login, hu, if_neg h0, hfind, hess, hpw, hopt, hoptd, hd, hm, hb,
    generate_api_credentials, huser', Bool.not_true, Bool.false_eq_true, if_false,
    ne_eq, not_true, ite_false, Bool.not_false, if_true, or_self, not_false_iff]
  simp [hoptd', huser']

theorem login_mismatch_eq
    (db : DB) (usr pw d m b : String) (now : Nat) (s k : String) (e : Employee)
    (h0 : usr ≠ "") (h1 : pyStrip usr = usr)
    (hfind : db.employees.find? (fun x => x.app_id == usr) = some e)
    (hess : e.allow_ess = true)
    (hpw : e.app_password = some pw) (hpwne : pw ≠ "")
    (hbound : optTruthy e.device_id = true)
    (hmm : e.device_id ≠ some d ∨ e.device_model ≠ some m ∨ e.device_brand ≠ some b) :
    mobile_app_login db usr pw d m b now s k =
      (failure "Access denied. This account is registered to a different device. Please contact HR to reset device access.", db) := by
  have hu : (if usr = "" then "" else pyStrip usr) = usr := by rw [if_neg h0, h1]
  have hopt : optTruthy (some pw) = true := by simp [optTruthy, hpwne]
  simp only [mobile_app_login, hu, if_neg h0, hfind, hess, hpw, hopt, hbound,
    Bool.not_true, Bool.false_eq_true, if_false, ne_eq, not_true, ite_false,
    Bool.not_false, if_true, if_pos hmm]

theorem login_wrong_password_eq
    (db : DB) (usr q pw d m b : String) (now : Nat) (s k : String) (e : Employee)
    (h0 : usr ≠ "") (h1 : pyStrip usr = usr)
    (hfind : db.employees.find? (fun x => x.app_id == usr) = some e)
    (hess : e.allow_ess = true)
    (hpw : e.app_password = some q) (hpwne : q ≠ "") (hne : q ≠ pw) :
    mobile_app_login db usr pw d m b now s k = (failure "Invalid app password", db) := by
  have hu : (if usr = "" then "" else pyStrip usr) = usr := by rw [if_neg h0, h1]
  have hopt : optTruthy (some q) = true := by simp [optTruthy, hpwne]
  simp only [mobile_app_login, hu, if_neg h0, hfind, hess, hpw, hopt,
    Bool.not_true, Bool.false_eq_true, if_false, ne_eq, ite_false, Bool.not_false]
  simp [hne]

theorem newApiKey_ne_empty (u : User) (k : String) (hk : k ≠ "") : newApiKey u k ≠ "" := by
  unfold newApiKey
  split
  · next h =>
    match hu : u.api_key with
    | none => rw [hu] at h; simp [optTruthy] at h
    | some t =>
      rw [hu] at h
      simp only [optTruthy] at h
      simpa [Option.getD] using bne_iff_ne.mp h
  · exact hk

theorem newApiKey_setCreds (key s : String) (u : User) (k2 : String) (hkey : key ≠ "") :
    newApiKey (setCreds key s u) k2 = key := by
  simp [newApiKey, setCreds, optTruthy, hkey]

theorem login_ok
    (db : DB) (usr pw d m b : String) (now : Nat) (s k : String) (e : Employee) (u : User)
    (h0 : usr ≠ "") (h1 : pyStrip usr = usr)
    (hfind : db.employees.find? (fun x => x.app_id == usr) = some e)
    (hess : e.allow_ess = true)
    (hpw : e.app_password = some pw) (hpwne : pw ≠ "")
    (hdev : deviceOk e d m b)
    (huser : db.findUser e.user_id = some u) :
    (mobile_app_login db usr pw d m b now s k).1 =
        ⟨true, "Login successful", some ⟨e.name, e.employee_name, e.user_id,
          newApiKey u k, s, d, e.app_id, e.require_password_reset.getD 0⟩⟩ ∧
    (∃ e', (mobile_app_login db usr pw d m b now s k).2.employees.find?
          (fun x => x.app_id == usr) = some e' ∧
        e'.name = e.name ∧ e'.employee_name = e.employee_name ∧
        e'.user_id = e.user_id ∧ e'.allow_ess = e.allow_ess ∧
        e'.app_id = e.app_id ∧ e'.app_password = e.app_password ∧
        e'.device_id = some d ∧ e'.device_model = some m ∧ e'.device_brand = some b ∧
        e'.device_registered_on =
          (if optTruthy e.device_id then e.device_registered_on else some now) ∧
        e'.require_password_reset = e.require_password_reset) ∧
    (mobile_app_login db usr pw d m b now s k).2.findUser e.user_id =
        some (setCreds (newApiKey u k) s u) := by
  rcases hdev with hunb | ⟨hd, hm2, hb2, htr⟩
  · rw [login_unbound_eq db usr pw d m b now s k e u h0 h1 hfind hess hpw hpwne hunb huser]
    refine ⟨rfl, ⟨bindDevice d m b now e, ?_, ?_⟩, ?_⟩
    · have hemp : ((({ db.updateEmployee e.name (bindDevice d m b now) with
          session := e.user_id } : DB)).updateUser e.user_id
            (setCreds (newApiKey u k) s)).employees =
          (db.updateEmployee e.name (bindDevice d m b now)).employees := rfl
      rw [hemp, find?_updateEmployee_key db e.name (bindDevice d m b now)
        (fun x => x.app_id) (fun x => rfl) usr, hfind]
      simp
    · simp [bindDevice, hunb]
    · exact findUser_updateUser_self _ e.user_id _ u huser
  · have hdne : d ≠ "" := by
      rw [hd] at htr
      simpa [optTruthy] using bne_iff_ne.mp htr
    rw [login_bound_eq db usr pw d m b now s k e u h0 h1 hfind hess hpw hpwne hd hdne hm2 hb2 huser]
    refine ⟨rfl, ⟨e, ?_, ?_⟩, ?_⟩
    · exact hfind
    · simp [hd, hm2, hb2, optTruthy, hdne]
    · exact findUser_updateUser_self _ e.user_id _ u huser

/-! ### Claim theorems -/

/-- C1: for an employee with a bound (truthy) device id, a login with the
correct app id and app password whose supplied device id, model or brand
differs from the stored values returns the device-mismatch failure and
leaves the store — in particular every Employee field, the three device
fields and `device_registered_on` included — unchanged. -/
theorem C1_device_mismatch_rejected
    (db : DB) (usr pw d m b : String) (now : Nat) (s k : String) (e : Employee)
    (h0 : usr ≠ "") (h1 : pyStrip usr = usr)
    (hfind : db.employees.find? (fun x => x.app_id == usr) = some e)
    (hess : e.allow_ess = true)
    (hpw : e.app_password = some pw) (hpwne : pw ≠ "")
    (hbound : optTruthy e.device_id = true)
    (hmm : e.device_id ≠ some d ∨ e.device_model ≠ some m ∨ e.device_brand ≠ some b) :
    mobile_app_login db usr pw d m b now s k =
      (failure "Access denied. This account is registered to a different device. Please contact HR to reset device access.", db) :=
  login_mismatch_eq db usr pw d m b now s k e h0 h1 hfind hess hpw hpwne hbound hmm

/-- Witness for C1: a second login from a device whose id differs from the
bound one fails with the device-mismatch message and changes nothing. -/
theorem C1_device_mismatch_rejected_witness :
    mobile_app_login dbBound "APP1" "pw1" "DEV2" "M1" "B1" 9 "s" "k" =
      (failure "Access denied. This account is registered to a different device. Please contact HR to reset device access.", dbBound) :=
  C1_device_mismatch_rejected dbBound "APP1" "pw1" "DEV2" "M1" "B1" 9 "s" "k" aliceBound
    (by decide) (by decide) (by decide) (by decide) (by decide) (by decide) (by decide)
    (by decide)

/-- C7 (amended): when the supplied app id is non-blank after stripping and
no Employee record carries the stripped app id, the login fails with
"Invalid App ID" and the store is unchanged.  (A blank or whitespace-only
app id instead fails earlier with "App ID is required".) -/
theorem C7_unknown_app_id_amended
    (db : DB) (usr pw d m b : String) (now : Nat) (s k : String)
    (h0 : pyStrip usr ≠ "")
    (hfind : db.employees.find? (fun x => x.app_id == pyStrip usr) = none) :
    mobile_app_login db usr pw d m b now s k = (failure "Invalid App ID", db) := by
  have husr : usr ≠ "" := by
    intro h
    exact h0 (by rw [h]; rfl)
  have hu : (if usr = "" then "" else pyStrip usr) = pyStrip usr := if_neg husr
  simp only [mobile_app_login, hu, if_neg h0, hfind]

/-- Witness for C7: an unknown non-blank app id is rejected with
"Invalid App ID". -/
theorem C7_unknown_app_id_amended_witness :
    mobile_app_login dbBound "NOPE" "pw1" "D" "M" "B" 0 "s" "k" =
      (failure "Invalid App ID", dbBound) :=
  C7_unknown_app_id_amended dbBound "NOPE" "pw1" "D" "M" "B" 0 "s" "k" (by decide) (by decide)

/-- Counterexample to C7 as stated: a blank supplied app id matches no
Employee record, yet the returned message is "App ID is required", not
"Invalid App ID". -/
theorem C7_blank_app_id_counterexample :
    dbBound.employees.find? (fun x => x.app_id == "") = none ∧
    mobile_app_login dbBound "" "pw1" "D" "M" "B" 0 "s" "k" =
      (failure "App ID is required", dbBound) ∧
    "App ID is required" ≠ "Invalid App ID" := by
  refine ⟨by decide, by decide, by decide⟩

/-- C8: when the resolved employee has `allow_ess` false, the login fails
with the ESS-disabled message for every supplied password and device
descriptors — the check precedes the password and device checks — and the
store is unchanged. -/
theorem C8_ess_disabled_rejected
    (db : DB) (usr pw d m b : String) (now : Nat) (s k : String) (e : Employee)
    (h0 : usr ≠ "") (h1 : pyStrip usr = usr)
    (hfind : db.employees.find? (fun x => x.app_id == usr) = some e)
    (hess : e.allow_ess = false) :
    mobile_app_login db usr pw d m b now s k =
      (failure "Employee Self Service is not enabled for this account", db) := by
  have hu : (if usr = "" then "" else pyStrip usr) = usr := by rw [if_neg h0, h1]
  simp only [mobile_app_login, hu, if_neg h0, hfind, hess]
  simp

/-- Witness for C8: a login against an ESS-disabled employee fails with the
ESS-disabled message even with the correct password and bound device. -/
theorem C8_ess_disabled_rejected_witness :
    mobile_app_login
        { dbBound with employees := [{ aliceBound with allow_ess := false }] }
        "APP1" "pw1" "DEV1" "M1" "B1" 9 "s" "k" =
      (failure "Employee Self Service is not enabled for this account",
       { dbBound with employees := [{ aliceBound with allow_ess := false }] }) :=
  C8_ess_disabled_rejected
    { dbBound with employees := [{ aliceBound with allow_ess := false }] }
    "APP1" "pw1" "DEV1" "M1" "B1" 9 "s" "k" { aliceBound with allow_ess := false }
    (by decide) (by decide) (by decide) (by decide)

/-- C2: for an employee with ESS allowed, an app password set and no device
bound, a login with the correct app id and password and any device
descriptors succeeds and persists the supplied device id, model, brand and
the current timestamp on that Employee record. -/
theorem C2_first_login_binds_device
    (db : DB) (usr pw d m b : String) (now : Nat) (s k : String) (e : Employee) (u : User)
    (h0 : usr ≠ "") (h1 : pyStrip usr = usr)
    (hfind : db.employees.find? (fun x => x.app_id == usr) = some e)
    (hess : e.allow_ess = true)
    (hpw : e.app_password = some pw) (hpwne : pw ≠ "")
    (hunb : optTruthy e.device_id = false)
    (huser : db.findUser e.user_id = some u) :
    (mobile_app_login db usr pw d m b now s k).1.success = true ∧
    ∃ e', (mobile_app_login db usr pw d m b now s k).2.employees.find?
        (fun x => x.app_id == usr) = some e' ∧
      e'.name = e.name ∧ e'.device_id = some d ∧ e'.device_model = some m ∧
      e'.device_brand = some b ∧ e'.device_registered_on = some now := by
  obtain ⟨hres, ⟨e', hfind', hn, _, _, _, _, _, hdid, hdm, hdb2, hreg, _⟩, _⟩ :=
    login_ok db usr pw d m b now s k e u h0 h1 hfind hess hpw hpwne (Or.inl hunb) huser
  refine ⟨by rw [hres], e', hfind', hn, hdid, hdm, hdb2, ?_⟩
  rw [hreg, hunb]
  simp

/-- Witness for C2: a first login on the unbound fixture succeeds and the
supplied descriptors and timestamp are persisted. -/
theorem C2_first_login_binds_device_witness :
    (mobile_app_login dbUnbound "APP1" "pw1" "D1" "M1" "B1" 7 "s1" "k1").1.success = true ∧
    ∃ e', (mobile_app_login dbUnbound "APP1" "pw1" "D1" "M1" "B1" 7 "s1" "k1").2.employees.find?
        (fun x => x.app_id == "APP1") = some e' ∧
      e'.name = aliceUnbound.name ∧ e'.device_id = some "D1" ∧ e'.device_model = some "M1" ∧
      e'.device_brand = some "B1" ∧ e'.device_registered_on = some 7 :=
  C2_first_login_binds_device dbUnbound "APP1" "pw1" "D1" "M1" "B1" 7 "s1" "k1"
    aliceUnbound ⟨none, none⟩ (by decide) (by decide) (by decide) (by decide) (by decide)
    (by decide) (by decide) (by decide)

/-- C5: `reset_device_id` without write permission fails with the
permission message and leaves the store unchanged; with write permission it
returns success and every Employee record with the given name has all four
device-binding fields cleared. -/
theorem C5_reset_device_id_permission (db : DB) (eid : String) :
    (reset_device_id db false eid = (failure "Insufficient permissions", db)) ∧
    ((reset_device_id db true eid).1 =
        ⟨true, "Device ID has been reset successfully. Employee can now login from a new device.", none⟩ ∧
     ∀ e ∈ db.employees, e.name = eid →
       ∃ e' ∈ (reset_device_id db true eid).2.employees,
         e'.name = e.name ∧ e'.device_id = none ∧ e'.device_model = none ∧
         e'.device_brand = none ∧ e'.device_registered_on = none) := by
  refine ⟨rfl, rfl, ?_⟩
  intro e he hname
  have hmem := List.mem_map_of_mem (fun x => if x.name == eid then clearDevice x else x) he
  have hmem2 : clearDevice e ∈ (reset_device_id db true eid).2.employees := by
    simpa [hname, reset_device_id, DB.updateEmployee] using hmem
  exact ⟨clearDevice e, hmem2, rfl, rfl, rfl, rfl, rfl⟩

/-- Witness for C5: on the bound fixture, the unpermitted call is refused
and the permitted call clears all four device fields of the employee. -/
theorem C5_reset_device_id_permission_witness :
    (reset_device_id dbBound false "HR-EMP-1" = (failure "Insufficient permissions", dbBound)) ∧
    ((reset_device_id dbBound true "HR-EMP-1").1 =
        ⟨true, "Device ID has been reset successfully. Employee can now login from a new device.", none⟩) ∧
    (∃ e' ∈ (reset_device_id dbBound true "HR-EMP-1").2.employees,
      e'.name = "HR-EMP-1" ∧ e'.device_id = none ∧ e'.device_model = none ∧
      e'.device_brand = none ∧ e'.device_registered_on = none) :=
  ⟨(C5_reset_device_id_permission dbBound "HR-EMP-1").1,
   (C5_reset_device_id_permission dbBound "HR-EMP-1").2.1,
   by
     obtain ⟨e', hmem, hn, h1, h2, h3, h4⟩ :=
       (C5_reset_device_id_permission dbBound "HR-EMP-1").2.2 aliceBound (by decide) (by decide)
     exact ⟨e', hmem, by rw [hn]; rfl, h1, h2, h3, h4⟩⟩

/-- C6: `reset_app_password` fails without changing the store when the
session user is "Guest" or no Employee record matches the session user;
otherwise it installs the new password and clears `require_password_reset`
to 0, with no check of any prior password. -/
theorem C6_reset_app_password_behavior (db : DB) (np : String) :
    (db.session = "Guest" → reset_app_password db np = (failure "Authentication required", db)) ∧
    (db.session ≠ "Guest" →
      db.employees.find? (fun x => x.user_id == db.session) = none →
      reset_app_password db np = (failure "Employee record not found", db)) ∧
    (∀ e, db.session ≠ "Guest" →
      db.employees.find? (fun x => x.user_id == db.session) = some e →
      (reset_app_password db np).1 = ⟨true, "Password reset successfully", none⟩ ∧
      ∃ e', (reset_app_password db np).2.employees.find?
          (fun x => x.user_id == db.session) = some e' ∧
        e'.app_password = some np ∧ e'.require_password_reset = some 0) := by
  refine ⟨?_, ?_, ?_⟩
  · intro hg
    simp [reset_app_password, hg]
  · intro hg hn
    simp [reset_app_password, hg, hn]
  · intro e hg hf
    have hrun : reset_app_password db np =
        (⟨true, "Password reset successfully", none⟩,
         db.updateEmployee e.name (setPasswordAndClearFlag np)) := by
      simp [reset_app_password, hg, hf]
    rw [hrun]
    refine ⟨rfl, setPasswordAndClearFlag np e, ?_, rfl, rfl⟩
    rw [find?_updateEmployee_key db e.name (setPasswordAndClearFlag np)
      (fun x => x.user_id) (fun x => rfl) db.session, hf]
    simp

/-- Witness for C6: on the self-session fixture the password is reset and
the flag cleared; with a guest session the call is refused. -/
theorem C6_reset_app_password_behavior_witness :
    (reset_app_password dbUnbound "new1" = (failure "Authentication required", dbUnbound)) ∧
    ((reset_app_password dbSelf "new1").1 = ⟨true, "Password reset successfully", none⟩ ∧
     ∃ e', (reset_app_password dbSelf "new1").2.employees.find?
         (fun x => x.user_id == dbSelf.session) = some e' ∧
       e'.app_password = some "new1" ∧ e'.require_password_reset = some 0) :=
  ⟨(C6_reset_app_password_behavior dbUnbound "new1").1 (by decide),
   (C6_reset_app_password_behavior dbSelf "new1").2.2 aliceUnbound (by decide) (by decide)⟩

/-- C10: when a first login binds an empty device id — the handler tests
only truthiness of the stored `device_id` — the account keeps behaving as
unbound: the next login is accepted with arbitrary descriptors and
re-binds them instead of checking them against the stored model and brand,
so the bound-device invariant is not enforced for such an account. -/
theorem C10_empty_device_id_unenforced
    (db : DB) (usr pw m b : String) (now1 : Nat) (s1 k1 : String)
    (d' m' b' : String) (now2 : Nat) (s2 k2 : String) (e : Employee) (u : User)
    (h0 : usr ≠ "") (h1 : pyStrip usr = usr)
    (hfind : db.employees.find? (fun x => x.app_id == usr) = some e)
    (hess : e.allow_ess = true)
    (hpw : e.app_password = some pw) (hpwne : pw ≠ "")
    (hunb : optTruthy e.device_id = false)
    (huser : db.findUser e.user_id = some u) :
    (mobile_app_login db usr pw "" m b now1 s1 k1).1.success = true ∧
    (∃ e1, (mobile_app_login db usr pw "" m b now1 s1 k1).2.employees.find?
        (fun x => x.app_id == usr) = some e1 ∧ e1.device_id = some "") ∧
    (mobile_app_login (mobile_app_login db usr pw "" m b now1 s1 k1).2
        usr pw d' m' b' now2 s2 k2).1.success = true ∧
    ∃ e2, (mobile_app_login (mobile_app_login db usr pw "" m b now1 s1 k1).2
        usr pw d' m' b' now2 s2 k2).2.employees.find?
        (fun x => x.app_id == usr) = some e2 ∧
      e2.device_id = some d' ∧ e2.device_model = some m' ∧ e2.device_brand = some b' := by
  obtain ⟨hres1, ⟨e1, hfind1, _, _, huid1, hess1, _, hpw1, hdid1, _, _, _, _⟩, huser1⟩ :=
    login_ok db usr pw "" m b now1 s1 k1 e u h0 h1 hfind hess hpw hpwne (Or.inl hunb) huser
  have hess1' : e1.allow_ess = true := by rw [hess1, hess]
  have hpw1' : e1.app_password = some pw := by rw [hpw1, hpw]
  have hunb1 : optTruthy e1.device_id = false := by rw [hdid1]; simp [optTruthy]
  have huser1' : (mobile_app_login db usr pw "" m b now1 s1 k1).2.findUser e1.user_id =
      some (setCreds (newApiKey u k1) s1 u) := by rw [huid1]; exact huser1
  obtain ⟨hres2, ⟨e2, hfind2, _, _, _, _, _, _, hdid2, hdm2, hdb2, _, _⟩, _⟩ :=
    login_ok (mobile_app_login db usr pw "" m b now1 s1 k1).2 usr pw d' m' b' now2 s2 k2 e1
      (setCreds (newApiKey u k1) s1 u) h0 h1 hfind1 hess1' hpw1' hpwne (Or.inl hunb1) huser1'
  exact ⟨by rw [hres1], ⟨e1, hfind1, hdid1⟩, by rw [hres2], e2, hfind2, hdid2, hdm2, hdb2⟩

/-- Witness for C10: binding the empty device id on the fixture, then
logging in from a completely different device, succeeds and re-binds. -/
theorem C10_empty_device_id_unenforced_witness :
    (mobile_app_login dbUnbound "APP1" "pw1" "" "M1" "B1" 7 "s1" "k1").1.success = true ∧
    (∃ e1, (mobile_app_login dbUnbound "APP1" "pw1" "" "M1" "B1" 7 "s1" "k1").2.employees.find?
        (fun x => x.app_id == "APP1") = some e1 ∧ e1.device_id = some "") ∧
    (mobile_app_login (mobile_app_login dbUnbound "APP1" "pw1" "" "M1" "B1" 7 "s1" "k1").2
        "APP1" "pw1" "D9" "M9" "B9" 8 "s2" "k2").1.success = true ∧
    ∃ e2, (mobile_app_login (mobile_app_login dbUnbound "APP1" "pw1" "" "M1" "B1" 7 "s1" "k1").2
        "APP1" "pw1" "D9" "M9" "B9" 8 "s2" "k2").2.employees.find?
        (fun x => x.app_id == "APP1") = some e2 ∧
      e2.device_id = some "D9" ∧ e2.device_model = some "M9" ∧ e2.device_brand = some "B9" :=
  C10_empty_device_id_unenforced dbUnbound "APP1" "pw1" "M1" "B1" 7 "s1" "k1"
    "D9" "M9" "B9" 8 "s2" "k2" aliceUnbound ⟨none, none⟩ (by decide) (by decide) (by decide)
    (by decide) (by decide) (by decide) (by decide) (by decide)

/-- C3: two consecutive successful logins for the same user return the
fresh hash handed to `generate_api_credentials` as `api_secret` — non-empty
and different across the two calls since `frappe.generate_hash(length=15)`
returns distinct non-empty hashes — while the returned `api_key` is
identical across the two logins (an existing truthy key is preserved and a
key is created only if absent, and the fresh secret is persisted). -/
theorem C3_api_secret_rotation
    (db : DB) (usr pw d m b : String) (now1 now2 : Nat) (s1 k1 s2 k2 : String)
    (e : Employee) (u : User)
    (h0 : usr ≠ "") (h1 : pyStrip usr = usr)
    (hfind : db.employees.find? (fun x => x.app_id == usr) = some e)
    (hess : e.allow_ess = true)
    (hpw : e.app_password = some pw) (hpwne : pw ≠ "")
    (hdev : deviceOk e d m b)
    (huser : db.findUser e.user_id = some u)
    (hs2 : s2 ≠ "") (hk1 : k1 ≠ "") (hss : s1 ≠ s2) :
    ∃ d1 d2,
      (mobile_app_login db usr pw d m b now1 s1 k1).1.success = true ∧
      (mobile_app_login db usr pw d m b now1 s1 k1).1.data = some d1 ∧
      (mobile_app_login (mobile_app_login db usr pw d m b now1 s1 k1).2
          usr pw d m b now2 s2 k2).1.success = true ∧
      (mobile_app_login (mobile_app_login db usr pw d m b now1 s1 k1).2
          usr pw d m b now2 s2 k2).1.data = some d2 ∧
      d1.api_secret = s1 ∧ d2.api_secret = s2 ∧ d2.api_secret ≠ "" ∧
      d1.api_secret ≠ d2.api_secret ∧ d1.api_key = d2.api_key := by
  obtain ⟨hres1, ⟨e1, hfind1, _, _, huid1, hess1, _, hpw1, hdid1, hdm1, hdb1, _, _⟩, huser1⟩ :=
    login_ok db usr pw d m b now1 s1 k1 e u h0 h1 hfind hess hpw hpwne hdev huser
  have hess1' : e1.allow_ess = true := by rw [hess1, hess]
  have hpw1' : e1.app_password = some pw := by rw [hpw1, hpw]
  have hdev2 : deviceOk e1 d m b := by
    by_cases hd : d = ""
    · left
      rw [hdid1, hd]
      simp [optTruthy]
    · right
      exact ⟨hdid1, hdm1, hdb1, by rw [hdid1]; simp [optTruthy, hd]⟩
  have huser1' : (mobile_app_login db usr pw d m b now1 s1 k1).2.findUser e1.user_id =
      some (setCreds (newApiKey u k1) s1 u) := by rw [huid1]; exact huser1
  obtain ⟨hres2, _, _⟩ :=
    login_ok (mobile_app_login db usr pw d m b now1 s1 k1).2 usr pw d m b now2 s2 k2 e1
      (setCreds (newApiKey u k1) s1 u) h0 h1 hfind1 hess1' hpw1' hpwne hdev2 huser1'
  refine ⟨⟨e.name, e.employee_name, e.user_id, newApiKey u k1, s1, d, e.app_id,
            e.require_password_reset.getD 0⟩,
          ⟨e1.name, e1.employee_name, e1.user_id,
            newApiKey (setCreds (newApiKey u k1) s1 u) k2, s2, d, e1.app_id,
            e1.require_password_reset.getD 0⟩,
          by rw [hres1], by rw [hres1], by rw [hres2], by rw [hres2],
          rfl, rfl, hs2, hss, ?_⟩
  exact (newApiKey_setCreds (newApiKey u k1) s1 u k2 (newApiKey_ne_empty u k1 hk1)).symm

/-- Witness for C3: two logins on the unbound fixture return secrets "s1"
then "s2" and the same api key. -/
theorem C3_api_secret_rotation_witness :
    ∃ d1 d2,
      (mobile_app_login dbUnbound "APP1" "pw1" "D1" "M1" "B1" 7 "s1" "k1").1.success = true ∧
      (mobile_app_login dbUnbound "APP1" "pw1" "D1" "M1" "B1" 7 "s1" "k1").1.data = some d1 ∧
      (mobile_app_login (mobile_app_login dbUnbound "APP1" "pw1" "D1" "M1" "B1" 7 "s1" "k1").2
          "APP1" "pw1" "D1" "M1" "B1" 8 "s2" "k2").1.success = true ∧
      (mobile_app_login (mobile_app_login dbUnbound "APP1" "pw1" "D1" "M1" "B1" 7 "s1" "k1").2
          "APP1" "pw1" "D1" "M1" "B1" 8 "s2" "k2").1.data = some d2 ∧
      d1.api_secret = "s1" ∧ d2.api_secret = "s2" ∧ d2.api_secret ≠ "" ∧
      d1.api_secret ≠ d2.api_secret ∧ d1.api_key = d2.api_key :=
  C3_api_secret_rotation dbUnbound "APP1" "pw1" "D1" "M1" "B1" 7 8 "s1" "k1" "s2" "k2"
    aliceUnbound ⟨none, none⟩ (by decide) (by decide) (by decide) (by decide) (by decide)
    (by decide) (by decide) (by decide) (by decide) (by decide) (by decide)

/-- C4 (amended): for a session user with a matching Employee record whose
stored app password is non-empty, `change_app_password` called with the
stored password as old and a non-empty new password different from the old
persists the new password, so that a subsequent login with the new
password succeeds and one with the old password fails; if the old password
does not match the stored one, or no Employee record matches the session
user, the call fails and the store is unchanged.  (As literally stated the
claim fails when the new password equals the old or is empty.) -/
theorem C4_change_app_password_amended
    (db : DB) (old np d m b : String) (now : Nat) (s k : String) (e : Employee) (u : User) :
    (db.employees.find? (fun x => x.user_id == db.session) = some e →
      e.app_password = some old → old ≠ "" → np ≠ "" → np ≠ old →
      e.app_id ≠ "" → pyStrip e.app_id = e.app_id →
      db.employees.find? (fun x => x.app_id == e.app_id) = some e →
      e.allow_ess = true → deviceOk e d m b → db.findUser e.user_id = some u →
      (change_app_password db old np).1 = ⟨true, "App password changed successfully", none⟩ ∧
      (∃ e', (change_app_password db old np).2.employees.find?
          (fun x => x.app_id == e.app_id) = some e' ∧ e'.app_password = some np) ∧
      (mobile_app_login (change_app_password db old np).2
          e.app_id np d m b now s k).1.success = true ∧
      (mobile_app_login (change_app_password db old np).2
          e.app_id old d m b now s k).1 = failure "Invalid app password") ∧
    (db.employees.find? (fun x => x.user_id == db.session) = some e →
      e.app_password ≠ some old →
      change_app_password db old np = (failure "Current app password is incorrect", db)) ∧
    (db.employees.find? (fun x => x.user_id == db.session) = none →
      change_app_password db old np = (failure "No employee record found", db)) := by
  refine ⟨?_, ?_, ?_⟩
  · intro hfindU hpw hold hnp hnpo happ0 happ1 hfindA hess hdev huser
    have hrun : change_app_password db old np =
        (⟨true, "App password changed successfully", none⟩,
         db.updateEmployee e.name (setPassword np)) := by
      simp [change_app_password, hfindU, hpw, optTruthy, hold]
    have hfindA' : (db.updateEmployee e.name (setPassword np)).employees.find?
        (fun x => x.app_id == e.app_id) = some (setPassword np e) := by
      rw [find?_updateEmployee_key db e.name (setPassword np)
        (fun x => x.app_id) (fun x => rfl) e.app_id, hfindA]
      simp
    have hess' : (setPassword np e).allow_ess = true := hess
    have hdev' : deviceOk (setPassword np e) d m b := hdev
    have huser' : (db.updateEmployee e.name (setPassword np)).findUser
        (setPassword np e).user_id = some u := huser
    obtain ⟨hres, _, _⟩ :=
      login_ok (db.updateEmployee e.name (setPassword np)) e.app_id np d m b now s k
        (setPassword np e) u happ0 happ1 hfindA' hess' rfl hnp hdev' huser'
    have hwrong := login_wrong_password_eq (db.updateEmployee e.name (setPassword np))
      e.app_id np old d m b now s k (setPassword np e) happ0 happ1 hfindA' hess' rfl hnp hnpo
    rw [hrun]
    exact ⟨rfl, ⟨setPassword np e, hfindA', rfl⟩, by rw [hres], by rw [hwrong]⟩
  · intro hfindU hne
    simp [change_app_password, hfindU, hne]
  · intro hnone
    simp [change_app_password, hnone]

/-- Witness for C4: on the self-session fixture, changing "pw1" to "pw2"
succeeds and persists; login with "pw2" then succeeds while login with
"pw1" fails; a wrong old password and a missing Employee record each fail
without changing the store. -/
theorem C4_change_app_password_amended_witness :
    ((change_app_password dbSelf "pw1" "pw2").1 =
        ⟨true, "App password changed successfully", none⟩ ∧
     (∃ e', (change_app_password dbSelf "pw1" "pw2").2.employees.find?
         (fun x => x.app_id == "APP1") = some e' ∧ e'.app_password = some "pw2") ∧
     (mobile_app_login (change_app_password dbSelf "pw1" "pw2").2
         "APP1" "pw2" "D" "M" "B" 0 "s" "k").1.success = true ∧
     (mobile_app_login (change_app_password dbSelf "pw1" "pw2").2
         "APP1" "pw1" "D" "M" "B" 0 "s" "k").1 = failure "Invalid app password") ∧
    (change_app_password dbSelf "bad" "pw2" =
      (failure "Current app password is incorrect", dbSelf)) ∧
    (change_app_password dbUnbound "pw1" "pw2" =
      (failure "No employee record found", dbUnbound)) :=
  ⟨(C4_change_app_password_amended dbSelf "pw1" "pw2" "D" "M" "B" 0 "s" "k"
      aliceUnbound ⟨none, none⟩).1 (by decide) (by decide) (by decide) (by decide)
      (by decide) (by decide) (by decide) (by decide) (by decide) (by decide) (by decide),
   (C4_change_app_password_amended dbSelf "bad" "pw2" "D" "M" "B" 0 "s" "k"
      aliceUnbound ⟨none, none⟩).2.1 (by decide) (by decide),
   (C4_change_app_password_amended dbUnbound "pw1" "pw2" "D" "M" "B" 0 "s" "k"
      aliceUnbound ⟨none, none⟩).2.2 (by decide)⟩

/-- Counterexample to C4 as stated: with the new password equal to the old
one, `change_app_password` succeeds and a subsequent login with the old
password also succeeds, contradicting the claim that a login with the old
password fails. -/
theorem C4_old_equals_new_counterexample :
    (change_app_password dbSelf "pw1" "pw1").1.success = true ∧
    (mobile_app_login (change_app_password dbSelf "pw1" "pw1").2
        "APP1" "pw1" "D" "M" "B" 0 "s" "k").1.success = true :=
  ⟨by decide, by decide⟩

/-- C9: in each of the four handlers, whenever the body over raising
collaborators raises at any point, the handler catches the exception, logs
it under the handler's error title, and returns the generic
`{success: false, message}` failure dictionary; the wrappers are total, so
no exception propagates to the caller. -/
theorem C9_exceptions_contained {E : Type} :
    (∀ (o : LoginCollab E) (usr pw d m b : String) (err : E),
      mobile_app_login_body o usr pw d m b = .error err →
      mobile_app_login_exc o usr pw d m b =
        (failure "An error occurred during login. Please try again",
         ["Mobile App Login Error"])) ∧
    (∀ (o : ResetPwCollab E) (err : E),
      reset_app_password_body o = .error err →
      reset_app_password_exc o =
        (failure "An error occurred. Please try again", ["Reset App Password Error"])) ∧
    (∀ (o : ResetDevCollab E) (err : E),
      reset_device_id_body o = .error err →
      reset_device_id_exc o =
        (failure "An error occurred. Please try again", ["Reset Device ID Error"])) ∧
    (∀ (o : ChangePwCollab E) (old : String) (err : E),
      change_app_password_body o old = .error err →
      change_app_password_exc o old =
        (failure "An error occurred. Please try again", ["Change App Password Error"])) := by
  refine ⟨?_, ?_, ?_, ?_⟩
  · intro o usr pw d m b err h
    simp [mobile_app_login_exc, h]
  · intro o err h
    simp [reset_app_password_exc, h]
  · intro o err h
    simp [reset_device_id_exc, h]
  · intro o old err h
    simp [change_app_password_exc, h]

/-- Witness for C9: oracles whose first collaborator call raises make each
handler return its generic failure with the error logged. -/
theorem C9_exceptions_contained_witness :
    mobile_app_login_exc throwingLoginCollab "APP1" "pw" "D" "M" "B" =
      (failure "An error occurred during login. Please try again",
       ["Mobile App Login Error"]) ∧
    reset_app_password_exc throwingResetPwCollab =
      (failure "An error occurred. Please try again", ["Reset App Password Error"]) ∧
    reset_device_id_exc throwingResetDevCollab =
      (failure "An error occurred. Please try again", ["Reset Device ID Error"]) ∧
    change_app_password_exc throwingChangePwCollab "old" =
      (failure "An error occurred. Please try again", ["Change App Password Error"]) :=
  ⟨C9_exceptions_contained.1 throwingLoginCollab "APP1" "pw" "D" "M" "B" () rfl,
   C9_exceptions_contained.2.1 throwingResetPwCollab () rfl,
   C9_exceptions_contained.2.2.1 throwingResetDevCollab () rfl,
   C9_exceptions_contained.2.2.2 throwingChangePwCollab "old" () rfl⟩

end MobileAuth
